import Mathlib

/-!
Verification development for the ape-core orchestration engine.

Shallow embedding of:
- `src/agents/langgraph_agent.py` (RoutingGraph: GraphState, RouterNode, AgentNode,
  OutputNode, LangGraphAgent.run);
- `src/core/llm_service.py` (LLMService: change_model, _generate_sync, mock responses)
  together with the model registry of `config.py`;
- `src/utils/db_utils.py` (VectorDatabase.query / count) and
  `src/agents/rag_agent_chroma.py` (search_documents, _simulate_document_search).

External effects (LLM backends, the Chroma vector backend, the embedding model,
agent implementations) are parameters: each is an explicit function/`Except` value,
where `.error e` stands for a raised Python exception with message `e`.
Python floats that only carry relevance/distance scores are modelled as `ℚ`.
-/

set_option maxRecDepth 8000

namespace Ape

/-- Python truthiness of an optional string: `None` and `""` are falsy. -/
def truthy : Option String → Bool
  | none => false
  | some s => s != ""

/-- Python `or` on an optional string: `x or d` (falsy `x` gives `d`). -/
def orDefault (o : Option String) (d : String) : String :=
  match o with
  | some s => if s ≠ "" then s else d
  | none => d

/-- Python `str.lower()` (character-wise lowering; ASCII letters, as in the
strings this system compares). -/
def pyLower (s : String) : String := ⟨s.data.map Char.toLower⟩

/-- Python `str.strip()`: drop leading and trailing whitespace. -/
def pyStrip (s : String) : String :=
  ⟨((s.data.dropWhile Char.isWhitespace).reverse.dropWhile Char.isWhitespace).reverse⟩

/-- Does `n` occur as a contiguous sublist of `h`? -/
def containsCL : List Char → List Char → Bool
  | [], n => n.isEmpty
  | c :: t, n => List.isPrefixOf n (c :: t) || containsCL t n

/-- Python substring test `n in h`. -/
def containsSub (h n : String) : Bool := containsCL h.data n.data

/-- Python dict assignment `d[k] = v` on an insertion-ordered association list:
replaces in place if the key exists, else appends. -/
def dictInsert {α : Type} (k : String) (v : α) : List (String × α) → List (String × α)
  | [] => [(k, v)]
  | (k', v') :: rest => if k' = k then (k, v) :: rest else (k', v') :: dictInsert k v rest

/-- A chat message `{role, content}`. -/
structure Msg where
  role : String
  content : String
deriving DecidableEq, Repr

/-- Outcome of one `llm_service.generate` call as observed by a graph node:
a plain string, a `{"error": ...}` dict, or a raised exception. -/
inductive LLMOut where
  | ok (s : String)
  | errDict (e : String)
  | exn (e : String)
deriving DecidableEq, Repr

/-- Result dict of one agent's `run`: `{content, agent_id?}`. -/
structure AgentResult where
  content : String
  agent_id : Option String
deriving DecidableEq, Repr

/-- The `GraphState` TypedDict of `langgraph_agent.py`. -/
structure GraphState where
  query : String
  context : List (String × String)
  current_agent : String
  agent_outputs : List (String × AgentResult)
  next_agent : Option String
  final_output : Option String
  error : Option String
deriving DecidableEq, Repr

/-- The environment a `LangGraphAgent` runs in: the LLM service behaviour
(per message list), the registered agent names, and each agent's behaviour
(agent type, query, context; `.error` models a raised exception). -/
structure GraphEnv where
  llm : List Msg → LLMOut
  agent_types : List String
  agents : String → String → List (String × String) → Except String AgentResult

/-- Context block accumulation of `RouterNode.run` (lines 123-126):
one labelled block per non-empty context entry. -/
def contextStr (context : List (String × String)) : String :=
  context.foldl
    (fun acc kv =>
      if kv.2 ≠ "" then
        acc ++ "=== " ++ kv.1.toUpper ++ " 컨텍스트 ===\n" ++ kv.2 ++ "\n\n"
      else acc) ""

/-- The routing prompt built by `RouterNode.run` (lines 129-152). -/
def routerPrompt (agent_types : List String) (query : String)
    (context : List (String × String)) : String :=
  let cs := contextStr context
  "라우터로서 현재 쿼리와 컨텍스트를 분석하여 다음에 실행할 에이전트를 결정해야 합니다.\n\n사용 가능한 에이전트:\n"
    ++ String.intercalate ", " agent_types
    ++ "\n\n각 에이전트 용도:\n- sql: 데이터베이스 쿼리, 테이블 정보, 데이터 분석\n- jira: 이슈 추적, 티켓 관리, 프로젝트 관리\n- bitbucket: 코드 저장소, 버전 관리, PR 관리\n- s3: 파일 스토리지, 버킷 관리, 객체 관리\n- rag: 문서 검색, 지식 증강, 정보 검색\n- swdp: SW개발 포털 정보, TR 정보 확인, 티켓 조회\n\n현재 쿼리:\n"
    ++ query ++ "\n\n"
    ++ (if cs ≠ "" then "현재 컨텍스트:\n" ++ cs else "컨텍스트 없음")
    ++ "\n\n작업:\n1) 현재 쿼리를 처리하기 위해 다음에 실행할 최적의 에이전트를 선택하세요.\n2) 선택한 에이전트 이름만 반환하세요(다른 설명 없이).\n3) 선택할 에이전트가 없으면(최종 응답이 가능하거나 종료 필요) \"none\"을 반환하세요.\n\n에이전트 이름:"

/-- Embedding of `RouterNode.run` (lines 105-184): ask the LLM which agent is next; a dict
error or an exception sets `error` and clears `next_agent`; otherwise the
answer is trimmed, lower-cased, and defaulted to `"none"` unless it is a known
agent name. -/
def RouterNode.run (llm : List Msg → LLMOut) (agent_types : List String)
    (state : GraphState) : GraphState :=
  let prompt := routerPrompt agent_types state.query state.context
  match llm [⟨"user", prompt⟩] with
  | .errDict e => { state with error := some ("라우팅 오류: " ++ e), next_agent := none }
  | .exn e => { state with error := some ("라우터 노드 오류: " ++ e), next_agent := none }
  | .ok s =>
    let next0 := pyLower (pyStrip s)
    let next1 := if next0 ≠ "none" ∧ next0 ∉ agent_types then "none" else next0
    { state with next_agent := if next1 = "none" then none else some next1 }

/-- Embedding of `AgentNode.run` (lines 46-89): run the agent, fold its output into
`agent_outputs` and `context`; set `final_output` only when `next_agent` is
already `None`; an exception sets `error` on the incoming state. -/
def AgentNode.run (agent : String → List (String × String) → Except String AgentResult)
    (agent_type : String) (state : GraphState) : GraphState :=
  match agent state.query state.context with
  | .ok result =>
    let s1 := { state with
      agent_outputs := dictInsert agent_type result state.agent_outputs,
      context := dictInsert agent_type result.content state.context }
    if s1.next_agent = none then { s1 with final_output := some result.content } else s1
  | .error e => { state with error := some ("에이전트 노드 오류: " ++ e) }

/-- The synthesis prompt built by `OutputNode.run` (lines 210-229). -/
def outputPrompt (query : String) (context : List (String × String)) : String :=
  let cs := context.foldl
    (fun acc kv =>
      if kv.2 ≠ "" then
        acc ++ "=== " ++ kv.1.toUpper ++ " 결과 ===\n" ++ kv.2 ++ "\n\n"
      else acc) ""
  "복합 에이전트 워크플로우의 최종 출력을 생성해야 합니다.\n\n원래 쿼리:\n" ++ query
    ++ "\n\n각 에이전트 결과:\n" ++ cs
    ++ "\n위 정보를 종합하여 사용자에게 명확하고 일관된 최종 응답을 제공하세요.\n각 에이전트의 결과를 적절하게 인용하고, 응답이 어떻게 쿼리에 답하는지 설명하세요.\n불필요한 기술적 세부 사항은 생략하고 사용자에게 가장 유용한 정보에 집중하세요.\n응답 형식은 사용자가 쉽게 이해할 수 있는 명확한 형태로 구성하세요.\n"

/-- Embedding of `OutputNode.run` (lines 189-250): with a truthy `error`, render it; otherwise
synthesize the final answer; dict errors and exceptions still populate
`final_output` with an error string. -/
def OutputNode.run (llm : List Msg → LLMOut) (state : GraphState) : GraphState :=
  if truthy state.error then
    { state with final_output := some ("오류 발생: " ++ (state.error.getD "")) }
  else
    let prompt := outputPrompt state.query state.context
    match llm [⟨"system", prompt⟩] with
    | .errDict e => { state with final_output := some ("최종 출력 생성 오류: " ++ e) }
    | .exn e => { state with final_output := some ("출력 노드 오류: " ++ e) }
    | .ok out => { state with final_output := some out }

/-- One iteration body of the `while` loop in `LangGraphAgent.run`
(lines 310-325): dispatch on `next_agent`; after an agent node, `next_agent`
is forced back to `"router"`; an unrecognized value leaves the state unchanged. -/
def graphStep1 (env : GraphEnv) (s : GraphState) : GraphState :=
  match s.next_agent with
  | some na =>
    if na = "start" then RouterNode.run env.llm env.agent_types { s with current_agent := "router" }
    else if na ∈ env.agent_types then
      { AgentNode.run (env.agents na) na { s with current_agent := na } with
          next_agent := some "router" }
    else if na = "router" then RouterNode.run env.llm env.agent_types { s with current_agent := "router" }
    else s
  | none => s

/-- Number of AgentNode executions (0 or 1) performed by `graphStep1` on `s`. -/
def graphStepExecs (env : GraphEnv) (s : GraphState) : Nat :=
  match s.next_agent with
  | some na => if na = "start" then 0 else if na ∈ env.agent_types then 1 else 0
  | none => 0

/-- The `while state["next_agent"] and step < max_steps` loop (lines 309-334),
with `fuel = max_steps - step`. Returns (final state, remaining fuel, number of
AgentNode executions). The error check after each iteration breaks the loop. -/
def runLoop (env : GraphEnv) : Nat → GraphState → GraphState × Nat × Nat
  | 0, state => (state, 0, 0)
  | fuel + 1, state =>
    if truthy state.next_agent then
      let s1 := graphStep1 env state
      let e1 := graphStepExecs env state
      if truthy s1.error then (s1, fuel, e1)
      else
        let r := runLoop env fuel s1
        (r.1, r.2.1, e1 + r.2.2)
    else (state, fuel + 1, 0)

/-- The step-budget error message set at lines 337-338. -/
def stepBudgetMsg (max_steps : Nat) : String :=
  "최대 단계 수(" ++ toString max_steps ++ ")를 초과했습니다. 무한 루프 가능성이 있습니다."

/-- Outcome of one graph execution: final state, loop iterations used, and
AgentNode executions performed. -/
structure RunOutcome where
  state : GraphState
  steps : Nat
  agent_execs : Nat
deriving Repr

/-- The post-loop budget check (lines 336-338): with the budget used up
(`step >= max_steps`, i.e. no fuel left) and a truthy `next_agent`, set the
step-budget error. -/
def budgetCheck (max_steps : Nat) (fuelLeft : Nat) (s : GraphState) : GraphState :=
  if fuelLeft = 0 ∧ truthy s.next_agent then
    { s with error := some (stepBudgetMsg max_steps) }
  else s

/-- The post-loop output pass (lines 340-342): run the OutputNode unless
`final_output` is already truthy. -/
def finalize (env : GraphEnv) (s : GraphState) : GraphState :=
  if truthy s.final_output then s else OutputNode.run env.llm s

/-- The initial `GraphState` of `LangGraphAgent.run` (lines 294-302). -/
def initGraphState (query : String) (metaContext : List (String × String)) : GraphState :=
  { query := query, context := metaContext, current_agent := "",
    agent_outputs := [], next_agent := some "start", final_output := none, error := none }

/-- Embedding of `LangGraphAgent.run` up to `_format_response` (lines 276-345):
initial state, the bounded loop, the step-budget check, and the OutputNode pass
when `final_output` is still falsy. `max_steps` is `metadata.get("max_steps", 10)`. -/
def LangGraphAgent.runState (env : GraphEnv) (query : String)
    (metaContext : List (String × String)) (max_steps : Nat) : RunOutcome :=
  let r := runLoop env max_steps (initGraphState query metaContext)
  ⟨finalize env (budgetCheck max_steps r.2.1 r.1), max_steps - r.2.1, r.2.2⟩

/-- The response dict built by `_format_response` (lines 351-369); the ambient
`model` and `agent_id` identifier fields are plumbing and are not modelled. -/
structure GraphResponse where
  content : String
  error : Option String
  execution_path : String
  agent_outputs : List (String × AgentResult)
deriving DecidableEq, Repr

/-- Embedding of `LangGraphAgent._format_response`. -/
def formatResponse (state : GraphState) : GraphResponse :=
  let agent_path := state.agent_outputs.map
    (fun kv => kv.1 ++ " (" ++ (kv.2.agent_id.getD "unknown") ++ ")")
  { content := orDefault state.final_output "응답을 생성할 수 없습니다.",
    error := state.error,
    execution_path := if agent_path = [] then "직접 응답" else String.intercalate " -> " agent_path,
    agent_outputs := state.agent_outputs }

/-- The public `LangGraphAgent.run`: the whole pipeline is pure/total, so the
outer `try/except` of lines 307-349 has no remaining failure path to catch. -/
def LangGraphAgent.run (env : GraphEnv) (query : String)
    (metaContext : List (String × String)) (max_steps : Nat) : GraphResponse :=
  formatResponse (LangGraphAgent.runState env query metaContext max_steps).state

/-- A Router whose LLM answer always selects a known agent: every call returns a
plain string whose normalization is a registered (non-empty) agent name and is
never the literal "none". -/
def llmAlwaysRoutes (env : GraphEnv) : Prop :=
  ∀ msgs, ∃ a, env.llm msgs = .ok a ∧ pyLower (pyStrip a) ∈ env.agent_types ∧
    pyLower (pyStrip a) ≠ "none" ∧ pyLower (pyStrip a) ≠ ""

/-- Every agent call returns a result (no agent raises). -/
def agentsTotal (env : GraphEnv) : Prop :=
  ∀ t q c, ∃ r, env.agents t q c = .ok r

/-- Loop invariant under `llmAlwaysRoutes`: no error so far, and `next_agent` is
the start marker, the router marker, or a registered non-empty agent name. -/
def GraphInv (env : GraphEnv) (s : GraphState) : Prop :=
  s.error = none ∧
  (s.next_agent = some "start" ∨ s.next_agent = some "router" ∨
    ∃ t, s.next_agent = some t ∧ t ∈ env.agent_types ∧ t ≠ "")

lemma truthy_some_ne {x : String} (h : x ≠ "") : truthy (some x) = true := by
  simp [truthy, h]

lemma routerNode_routes (env : GraphEnv) (h : llmAlwaysRoutes env) (s : GraphState) :
    ∃ t, RouterNode.run env.llm env.agent_types s = { s with next_agent := some t } ∧
      t ∈ env.agent_types ∧ t ≠ "" := by
  obtain ⟨a, ha, hmem, hnone, hne⟩ :=
    h [⟨"user", routerPrompt env.agent_types s.query s.context⟩]
  refine ⟨pyLower (pyStrip a), ?_, hmem, hne⟩
  have hC : ¬(pyLower (pyStrip a) ≠ "none" ∧ pyLower (pyStrip a) ∉ env.agent_types) :=
    fun hc => hc.2 hmem
  simp only [RouterNode.run, ha, if_neg hC, if_neg hnone]

lemma agentNode_run_ok (agent : String → List (String × String) → Except String AgentResult)
    (t : String) (s : GraphState) (r : AgentResult)
    (h : agent s.query s.context = .ok r) (hna : s.next_agent ≠ none) :
    AgentNode.run agent t s =
      { s with agent_outputs := dictInsert t r s.agent_outputs,
               context := dictInsert t r.content s.context } := by
  unfold AgentNode.run
  rw [h]
  simp [hna]

lemma graphStep1_router (env : GraphEnv) (Hllm : llmAlwaysRoutes env)
    (Hrt : "router" ∉ env.agent_types) (s : GraphState)
    (hna : s.next_agent = some "start" ∨ s.next_agent = some "router") :
    ∃ t, graphStep1 env s = { s with current_agent := "router", next_agent := some t } ∧
      t ∈ env.agent_types ∧ t ≠ "" ∧ graphStepExecs env s = 0 := by
  obtain ⟨q, cx, ca, ao, na, fo, er⟩ := s
  rcases hna with h | h
  · replace h : na = some "start" := h
    subst h
    obtain ⟨t, ht, hmem, hne⟩ := routerNode_routes env Hllm
      ⟨q, cx, "router", ao, some "start", fo, er⟩
    exact ⟨t, by simp [graphStep1, ht], hmem, hne, by simp [graphStepExecs]⟩
  · replace h : na = some "router" := h
    subst h
    obtain ⟨t, ht, hmem, hne⟩ := routerNode_routes env Hllm
      ⟨q, cx, "router", ao, some "router", fo, er⟩
    exact ⟨t, by simp [graphStep1, Hrt, ht], hmem, hne, by simp [graphStepExecs, Hrt]⟩

lemma graphStep1_agent (env : GraphEnv) (Hag : agentsTotal env) (s : GraphState) (t : String)
    (hna : s.next_agent = some t) (hst : t ≠ "start") (hmem : t ∈ env.agent_types) :
    ∃ r, env.agents t s.query s.context = .ok r ∧
      graphStep1 env s =
        { s with current_agent := t,
                 agent_outputs := dictInsert t r s.agent_outputs,
                 context := dictInsert t r.content s.context,
                 next_agent := some "router" } ∧
      graphStepExecs env s = 1 := by
  obtain ⟨r, hr⟩ := Hag t s.query s.context
  obtain ⟨q, cx, ca, ao, na, fo, er⟩ := s
  replace hna : na = some t := hna
  subst hna
  replace hr : env.agents t q cx = .ok r := hr
  refine ⟨r, hr, ?_, ?_⟩
  · simp [graphStep1, hst, hmem, AgentNode.run, hr]
  · simp [graphStepExecs, hst, hmem]

lemma runLoop_budget (env : GraphEnv) (Hllm : llmAlwaysRoutes env)
    (Hag : agentsTotal env) (Hrt : "router" ∉ env.agent_types) :
    ∀ fuel s, GraphInv env s →
      (runLoop env fuel s).2.1 = 0 ∧
      GraphInv env (runLoop env fuel s).1 ∧
      2 * (runLoop env fuel s).2.2 ≤ fuel + 1 ∧
      ((s.next_agent = some "start" ∨ s.next_agent = some "router") →
        2 * (runLoop env fuel s).2.2 ≤ fuel) := by
  intro fuel
  induction fuel with
  | zero =>
    intro s hs
    exact ⟨rfl, hs, by simp [runLoop], fun _ => by simp [runLoop]⟩
  | succ fuel ih =>
    intro s hs
    obtain ⟨herr, hshape⟩ := hs
    by_cases hrouterTurn : s.next_agent = some "start" ∨ s.next_agent = some "router"
    · obtain ⟨t, hstep, hmem, hne, hexecs⟩ := graphStep1_router env Hllm Hrt s hrouterTurn
      have htr : truthy s.next_agent = true := by
        rcases hrouterTurn with h | h <;> rw [h] <;> rfl
      have hs1err : (graphStep1 env s).error = none := by rw [hstep]; exact herr
      have h2 : truthy (graphStep1 env s).error = false := by rw [hs1err]; rfl
      have hs1next : (graphStep1 env s).next_agent = some t := by rw [hstep]
      have hInv1 : GraphInv env (graphStep1 env s) :=
        ⟨hs1err, Or.inr (Or.inr ⟨t, hs1next, hmem, hne⟩)⟩
      obtain ⟨ih1, ih2, ih3, _⟩ := ih _ hInv1
      have hredA : (runLoop env (fuel + 1) s).1 = (runLoop env fuel (graphStep1 env s)).1 := by
        simp [runLoop, htr, h2]
      have hredB : (runLoop env (fuel + 1) s).2.1 =
          (runLoop env fuel (graphStep1 env s)).2.1 := by
        simp [runLoop, htr, h2]
      have hredC : (runLoop env (fuel + 1) s).2.2 =
          graphStepExecs env s + (runLoop env fuel (graphStep1 env s)).2.2 := by
        simp [runLoop, htr, h2]
      refine ⟨by rw [hredB]; exact ih1, by rw [hredA]; exact ih2, ?_, fun _ => ?_⟩ <;>
        rw [hredC, hexecs] <;> omega
    · have hsome : ∃ t, s.next_agent = some t ∧ t ∈ env.agent_types ∧ t ≠ "" := by
        rcases hshape with h | h | h
        · exact absurd (Or.inl h) hrouterTurn
        · exact absurd (Or.inr h) hrouterTurn
        · exact h
      obtain ⟨t, hna, hmem, hne⟩ := hsome
      have hst : t ≠ "start" := fun h => hrouterTurn (Or.inl (h ▸ hna))
      obtain ⟨r, hr, hstep, hexecs⟩ := graphStep1_agent env Hag s t hna hst hmem
      have htr : truthy s.next_agent = true := by rw [hna]; exact truthy_some_ne hne
      have hs1err : (graphStep1 env s).error = none := by rw [hstep]; exact herr
      have h2 : truthy (graphStep1 env s).error = false := by rw [hs1err]; rfl
      have hs1next : (graphStep1 env s).next_agent = some "router" := by rw [hstep]
      have hInv1 : GraphInv env (graphStep1 env s) := ⟨hs1err, Or.inr (Or.inl hs1next)⟩
      obtain ⟨ih1, ih2, ih3, ih4⟩ := ih _ hInv1
      have hhalf := ih4 (Or.inr hs1next)
      have hredA : (runLoop env (fuel + 1) s).1 = (runLoop env fuel (graphStep1 env s)).1 := by
        simp [runLoop, htr, h2]
      have hredB : (runLoop env (fuel + 1) s).2.1 =
          (runLoop env fuel (graphStep1 env s)).2.1 := by
        simp [runLoop, htr, h2]
      have hredC : (runLoop env (fuel + 1) s).2.2 =
          graphStepExecs env s + (runLoop env fuel (graphStep1 env s)).2.2 := by
        simp [runLoop, htr, h2]
      refine ⟨by rw [hredB]; exact ih1, by rw [hredA]; exact ih2, ?_,
        fun hcon => absurd hcon hrouterTurn⟩
      rw [hredC, hexecs]; omega

lemma outputNode_error (llm : List Msg → LLMOut) (s : GraphState) :
    (OutputNode.run llm s).error = s.error := by
  simp only [OutputNode.run]
  split
  · rfl
  · split <;> rfl

lemma outputNode_final_some (llm : List Msg → LLMOut) (s : GraphState) :
    (OutputNode.run llm s).final_output ≠ none := by
  simp only [OutputNode.run]
  split
  · simp
  · split <;> simp

lemma finalize_error (env : GraphEnv) (s : GraphState) :
    (finalize env s).error = s.error := by
  unfold finalize
  split
  · rfl
  · exact outputNode_error env.llm s

lemma finalize_final_some (env : GraphEnv) (s : GraphState) :
    (finalize env s).final_output ≠ none := by
  unfold finalize
  split
  next h =>
    intro hcon
    rw [hcon] at h
    exact absurd h (by decide)
  next h => exact outputNode_final_some env.llm s

lemma formatResponse_content_ne (s : GraphState) : (formatResponse s).content ≠ "" := by
  show orDefault s.final_output "응답을 생성할 수 없습니다." ≠ ""
  unfold orDefault
  cases hfo : s.final_output with
  | none => decide
  | some v =>
    dsimp only
    split
    · assumption
    · decide

/-- C1: for every configured step bound `maxSteps = N ≥ 1`, if the Router's LLM
answer always selects a known agent (so the Router never returns `none`), no
agent raises, and no agent is registered under the reserved name `"router"`,
then `LangGraphAgent.run` still terminates: the loop uses exactly `N`
iterations, exits with the step-budget-exceeded message in the state's `error`
field, and performs strictly fewer than `N` AgentNode executions. -/
theorem routingGraph_step_budget (env : GraphEnv) (N : Nat) (hN : 1 ≤ N)
    (Hllm : llmAlwaysRoutes env) (Hag : agentsTotal env)
    (Hrt : "router" ∉ env.agent_types)
    (query : String) (ctx : List (String × String)) :
    (LangGraphAgent.runState env query ctx N).steps = N ∧
    (LangGraphAgent.runState env query ctx N).state.error = some (stepBudgetMsg N) ∧
    (LangGraphAgent.runState env query ctx N).agent_execs < N := by
  obtain ⟨h1, h2, h3, h4⟩ :=
    runLoop_budget env Hllm Hag Hrt N (initGraphState query ctx) ⟨rfl, Or.inl rfl⟩
  have hex2 : 2 * (runLoop env N (initGraphState query ctx)).2.2 ≤ N := h4 (Or.inl rfl)
  obtain ⟨herr1, hsh⟩ := h2
  have hnext : truthy (runLoop env N (initGraphState query ctx)).1.next_agent = true := by
    rcases hsh with h | h | ⟨t, h, _, hne⟩ <;> rw [h]
    · rfl
    · rfl
    · exact truthy_some_ne hne
  have hbc : budgetCheck N (runLoop env N (initGraphState query ctx)).2.1
      (runLoop env N (initGraphState query ctx)).1 =
      { (runLoop env N (initGraphState query ctx)).1 with
          error := some (stepBudgetMsg N) } := by
    unfold budgetCheck
    rw [if_pos ⟨h1, hnext⟩]
  refine ⟨?_, ?_, ?_⟩
  · show N - (runLoop env N (initGraphState query ctx)).2.1 = N
    rw [h1]
    exact Nat.sub_zero N
  · show (finalize env (budgetCheck N (runLoop env N (initGraphState query ctx)).2.1
      (runLoop env N (initGraphState query ctx)).1)).error = some (stepBudgetMsg N)
    rw [hbc, finalize_error]
  · show (runLoop env N (initGraphState query ctx)).2.2 < N
    omega

def c1StubResult : AgentResult := { content := "stub-output", agent_id := some "stub-agent" }

def c1WitnessEnv : GraphEnv :=
  { llm := fun _ => .ok "docs",
    agent_types := ["docs", "tickets"],
    agents := fun _ _ _ => .ok c1StubResult }

/-- C1 witness: the termination theorem applied to a concrete two-agent graph
whose Router LLM always answers "docs", with `maxSteps = 3`. -/
theorem routingGraph_step_budget_witness :
    (LangGraphAgent.runState c1WitnessEnv "q" [] 3).steps = 3 ∧
    (LangGraphAgent.runState c1WitnessEnv "q" [] 3).state.error = some (stepBudgetMsg 3) ∧
    (LangGraphAgent.runState c1WitnessEnv "q" [] 3).agent_execs < 3 :=
  routingGraph_step_budget c1WitnessEnv 3 (by decide)
    (fun _ => ⟨"docs", rfl, by decide, by decide, by decide⟩)
    (fun _ _ _ => ⟨c1StubResult, rfl⟩)
    (by decide) "q" []

def scenarioBEnv : GraphEnv :=
  { llm := fun _ => .ok "docs",
    agent_types := ["docs", "tickets"],
    agents := fun t _ _ => .ok { content := t ++ "-answer", agent_id := some (t ++ "-agent") } }

/-- C2 counterexample: in the two-agent RoutingGraph with `maxSteps = 3` whose
Router always answers "docs", the run performs exactly 1 AgentNode execution
(iterations go router, agent, router), not 3 as the claim states. -/
theorem scenarioB_not_three_agent_execs :
    (LangGraphAgent.runState scenarioBEnv "find docs" [] 3).agent_execs = 1 ∧
    ¬ (LangGraphAgent.runState scenarioBEnv "find docs" [] 3).agent_execs = 3 := by
  decide

/-- C2 amended: in that scenario the run exits after exactly 3 loop iterations,
of which exactly 1 is an AgentNode execution, with `error` set to the
step-budget-exceeded message and `finalOutput`/`content` a non-empty error
string. -/
theorem scenarioB_budget_exit :
    (LangGraphAgent.runState scenarioBEnv "find docs" [] 3).steps = 3 ∧
    (LangGraphAgent.runState scenarioBEnv "find docs" [] 3).agent_execs = 1 ∧
    (LangGraphAgent.runState scenarioBEnv "find docs" [] 3).state.error =
      some (stepBudgetMsg 3) ∧
    (LangGraphAgent.runState scenarioBEnv "find docs" [] 3).state.final_output =
      some ("오류 발생: " ++ stepBudgetMsg 3) ∧
    (LangGraphAgent.run scenarioBEnv "find docs" [] 3).content =
      "오류 발생: " ++ stepBudgetMsg 3 ∧
    (LangGraphAgent.run scenarioBEnv "find docs" [] 3).content ≠ "" := by
  decide

/-- C3: for every query, metadata context, step bound, and every LLM/agent
behaviour (including exceptions raised inside any node, which the embedding
represents as `.exn`/`.error` outcomes), the public `run` is total and returns
a well-formed response: its `content` is a non-empty string, and the final
state's `final_output` (or else the `error` field) is populated. -/
theorem orchestrator_total (env : GraphEnv) (query : String)
    (ctx : List (String × String)) (max_steps : Nat) :
    (LangGraphAgent.run env query ctx max_steps).content ≠ "" ∧
    ((LangGraphAgent.runState env query ctx max_steps).state.final_output ≠ none ∨
      (LangGraphAgent.run env query ctx max_steps).error ≠ none) := by
  constructor
  · exact formatResponse_content_ne _
  · left
    show (finalize env (budgetCheck max_steps
      (runLoop env max_steps (initGraphState query ctx)).2.1
      (runLoop env max_steps (initGraphState query ctx)).1)).final_output ≠ none
    exact finalize_final_some env _

/-- Python `str.startswith(pre)`. -/
def pyStartsWith (s pre : String) : Bool := List.isPrefixOf pre.data s.data

/-- A model configuration entry of `MODELS_CONFIG`; the request template and
token/temperature limits are static plumbing no claim depends on. -/
structure ModelConfig where
  name : String
  id : String
  description : String
  provider : String
  endpoint : String
  apiKey : String
deriving DecidableEq, Repr

/-- Process environment as read by `config.py`: each variable is `some value`
exactly when it is present in `os.environ`. -/
structure Env where
  internal_llm_endpoint : Option String
  internal_llm_api_key : Option String
  openrouter_endpoint : Option String
  openrouter_api_key : Option String
deriving DecidableEq, Repr

/-- Embedding of `env_loader.get_env(key, default)`. -/
def get_env (v : Option String) (d : String) : String := v.getD d

/-- The `"internal-model"` entry of `MODELS_CONFIG` (config.py lines 48-70). -/
def internalModelConfig (env : Env) : ModelConfig :=
  { name := "내부 LLM 모델", id := "internal-model-v1",
    description := "내부망 LLM 서비스 모델", provider := "internal",
    endpoint := get_env env.internal_llm_endpoint "http://internal-llm-service/api",
    apiKey := get_env env.internal_llm_api_key "" }

/-- The `"openrouter-llama"` entry of `MODELS_CONFIG` (config.py lines 71-95). -/
def openrouterModelConfig (env : Env) : ModelConfig :=
  { name := "OpenRouter Llama3", id := "meta/llama-3-70b-instruct",
    description := "OpenRouter를 통한 Llama3 70B 모델", provider := "openrouter",
    endpoint := get_env env.openrouter_endpoint "https://openrouter.ai/api/v1/chat/completions",
    apiKey := get_env env.openrouter_api_key "" }

/-- The `MODELS_CONFIG` registry of `config.py` (lines 47-96). -/
def models_config (env : Env) : List (String × ModelConfig) :=
  [("internal-model", internalModelConfig env),
   ("openrouter-llama", openrouterModelConfig env)]

/-- Embedding of `config.get_default_model` (lines 98-116); `dm` is the current
module-level `DEFAULT_MODEL`. -/
def get_default_model (env : Env) (dm : String) : String :=
  let internal_endpoint := (internalModelConfig env).endpoint
  let internal_key := (internalModelConfig env).apiKey
  if internal_endpoint ≠ "" ∧ internal_key ≠ "" ∧ dm = "internal-model" then
    "internal-model"
  else if env.openrouter_api_key.isSome then "openrouter-llama"
  else if ((models_config env).lookup dm).isSome then dm
  else ((models_config env).map Prod.fst).headD "internal-model"

/-- Embedding of `config.set_default_model` (lines 118-133): returns the success
flag and the new module-level `DEFAULT_MODEL`. -/
def set_default_model (env : Env) (dm : String) (model_key : String) : Bool × String :=
  if ((models_config env).lookup model_key).isSome then (true, model_key) else (false, dm)

/-- Embedding of `config.get_available_models` (lines 135-153). -/
def get_available_models (env : Env) : List String :=
  (if (internalModelConfig env).endpoint ≠ "" ∧ (internalModelConfig env).apiKey ≠ "" then
    ["internal-model"]
  else []) ++
  (if env.openrouter_api_key.isSome then
    (((models_config env).filter (fun kv => kv.2.provider == "openrouter")).map Prod.fst)
  else [])

/-- Embedding of `config.get_model_config` (lines 155-168); `.error` is the
raised `ValueError`. -/
def get_model_config (env : Env) (model_key : String) : Except String ModelConfig :=
  match (models_config env).lookup model_key with
  | some cfg => .ok cfg
  | none => .error ("알 수 없는 모델 키: " ++ model_key)

/-- The mutable descriptor fields of an `LLMService` instance. -/
structure LLMService where
  current_model : String
  model_config : ModelConfig
  model_id : String
  available_providers : List String
deriving DecidableEq, Repr

/-- Embedding of `LLMService._get_available_providers` (lines 34-45): the set of
providers of the available models. Python builds a `set` whose iteration order
is unspecified; the embedding keeps first-seen order. -/
def get_available_providers (env : Env) : List String :=
  (((get_available_models env).filterMap
      (fun k => ((models_config env).lookup k).map (fun c => c.provider))).filter
    (fun p => p != "")).dedup

/-- Embedding of `LLMService._check_internal_connection` (lines 47-88): probe
the first internal model's endpoint (`probeOk` is true iff the liveness probe
answered 200) and drop `"internal"` from the providers on failure. -/
def check_internal_connection (env : Env) (probeOk : Bool)
    (providers : List String) : List String :=
  let internal_models := (get_available_models env).filter
    (fun k => ((((models_config env).lookup k).map (fun c => c.provider)).getD "") == "internal")
  match internal_models with
  | [] => providers
  | m :: _ =>
    match (models_config env).lookup m with
    | none => providers
    | some cfg =>
      if cfg.endpoint = "" then providers
      else if probeOk then
        (if "internal" ∉ providers then providers ++ ["internal"] else providers)
      else providers.filter (fun p => p != "internal")

/-- Embedding of `LLMService.__init__` (lines 22-32): start on
`get_default_model()`; the internal liveness probe prunes the providers. -/
def LLMService.init (env : Env) (dm : String) (probeOk : Bool) :
    Except String LLMService :=
  let current := get_default_model env dm
  match get_model_config env current with
  | .error e => .error e
  | .ok cfg =>
    let provs := get_available_providers env
    let provs2 :=
      if "internal" ∈ provs then check_internal_connection env probeOk provs else provs
    .ok { current_model := current, model_config := cfg, model_id := cfg.id,
          available_providers := provs2 }

/-- Embedding of `LLMService.change_model` (lines 110-127): reject unknown keys
before any mutation; otherwise swap the active descriptor and update the
module-level default. Returns (success flag, new service state, new
`DEFAULT_MODEL`). -/
def LLMService.change_model (env : Env) (svc : LLMService) (dm : String)
    (model_key : String) : Except String (Bool × LLMService × String) :=
  if model_key ∉ get_available_models env then .ok (false, svc, dm)
  else
    match get_model_config env model_key with
    | .error e => .error e
    | .ok cfg =>
      .ok (true,
        { svc with current_model := model_key, model_config := cfg, model_id := cfg.id },
        (set_default_model env dm model_key).2)

/-- C7: for every key not registered among the available models, `change_model`
fails (returns `False` to the caller) and leaves the whole active descriptor —
`current_model`, `model_config`, `model_id` — and the global default unchanged;
since the state is returned untouched, repeating the failing call changes
nothing. -/
theorem change_model_unknown_key (env : Env) (svc : LLMService) (dm : String)
    (key : String) (h : key ∉ get_available_models env) :
    LLMService.change_model env svc dm key = .ok (false, svc, dm) := by
  unfold LLMService.change_model
  rw [if_pos h]

def c7Env : Env := ⟨none, none, none, none⟩

def c7Svc : LLMService :=
  { current_model := "internal-model", model_config := internalModelConfig c7Env,
    model_id := "internal-model-v1", available_providers := [] }

/-- C7 witness: with no available models, `change_model "nope"` fails and
returns the state unchanged. -/
theorem change_model_unknown_key_witness :
    LLMService.change_model c7Env c7Svc "internal-model" "nope" =
      .ok (false, c7Svc, "internal-model") :=
  change_model_unknown_key c7Env c7Svc "internal-model" "nope" (by decide)

lemma available_models_cases (env : Env) (key : String)
    (h : key ∈ get_available_models env) :
    (key = "internal-model" ∧ (internalModelConfig env).endpoint ≠ "" ∧
      (internalModelConfig env).apiKey ≠ "") ∨
    (key = "openrouter-llama" ∧ env.openrouter_api_key.isSome) := by
  unfold get_available_models at h
  rcases List.mem_append.mp h with h1 | h2
  · split at h1
    next hc => simp at h1; exact Or.inl ⟨h1, hc⟩
    next => simp at h1
  · split at h2
    next hc =>
      simp [models_config, internalModelConfig, openrouterModelConfig] at h2
      exact Or.inr ⟨h2, hc⟩
    next => simp at h2

lemma lookup_internal (env : Env) :
    (models_config env).lookup "internal-model" = some (internalModelConfig env) := by
  simp [models_config, List.lookup]

lemma lookup_openrouter (env : Env) :
    (models_config env).lookup "openrouter-llama" = some (openrouterModelConfig env) := by
  simp [models_config, List.lookup]

lemma get_default_model_internal (env : Env)
    (hA : (internalModelConfig env).endpoint ≠ "" ∧ (internalModelConfig env).apiKey ≠ "") :
    get_default_model env "internal-model" = "internal-model" := by
  unfold get_default_model
  exact if_pos ⟨hA.1, hA.2, rfl⟩

lemma get_default_model_openrouter (env : Env) (hB : env.openrouter_api_key.isSome) :
    get_default_model env "openrouter-llama" = "openrouter-llama" := by
  unfold get_default_model
  rw [if_neg (fun hc => absurd hc.2.2 (by decide)), if_pos hB]

/-- C10: a successful `change_model key` swaps the instance's active descriptor
and also mutates the process-global `DEFAULT_MODEL` (via `set_default_model`)
to `key`, so any `LLMService` constructed afterwards (under the same
environment, whatever the liveness-probe outcome) starts on `key`. -/
theorem change_model_sets_global_default (env : Env) (svc : LLMService)
    (dm : String) (key : String) (h : key ∈ get_available_models env) :
    ∃ cfg, get_model_config env key = .ok cfg ∧
      LLMService.change_model env svc dm key =
        .ok (true,
          { svc with current_model := key, model_config := cfg, model_id := cfg.id },
          key) ∧
      ∀ probeOk, ∃ svc2, LLMService.init env key probeOk = .ok svc2 ∧
        svc2.current_model = key := by
  have hlook : ∃ cfg, (models_config env).lookup key = some cfg := by
    rcases available_models_cases env key h with ⟨hk, -⟩ | ⟨hk, -⟩ <;> subst hk
    · exact ⟨_, lookup_internal env⟩
    · exact ⟨_, lookup_openrouter env⟩
  obtain ⟨cfg, hcfg⟩ := hlook
  have hgmc : get_model_config env key = .ok cfg := by
    unfold get_model_config
    rw [hcfg]
  have hgdm : get_default_model env key = key := by
    rcases available_models_cases env key h with ⟨hk, hA⟩ | ⟨hk, hB⟩ <;> subst hk
    · exact get_default_model_internal env hA
    · exact get_default_model_openrouter env hB
  refine ⟨cfg, hgmc, ?_, ?_⟩
  · unfold LLMService.change_model set_default_model
    rw [if_neg (fun hc => hc h), hgmc, hcfg]
    rfl
  · intro probeOk
    refine ⟨{ current_model := key, model_config := cfg, model_id := cfg.id,
              available_providers :=
                if "internal" ∈ get_available_providers env then
                  check_internal_connection env probeOk (get_available_providers env)
                else get_available_providers env }, ?_, rfl⟩
    simp only [LLMService.init]
    rw [hgdm, hgmc]

def c10Env : Env := ⟨none, some "internal-key", none, some "openrouter-key"⟩

def c10Svc : LLMService :=
  { current_model := "internal-model", model_config := internalModelConfig c10Env,
    model_id := "internal-model-v1", available_providers := ["internal", "openrouter"] }

/-- C10 witness: switching to `"openrouter-llama"` under an environment where it
is available updates the global default to that key and makes a subsequently
constructed service start on it. -/
theorem change_model_sets_global_default_witness :
    ∃ cfg, get_model_config c10Env "openrouter-llama" = .ok cfg ∧
      LLMService.change_model c10Env c10Svc "internal-model" "openrouter-llama" =
        .ok (true,
          { c10Svc with current_model := "openrouter-llama",
                        model_config := cfg,
                        model_id := cfg.id },
          "openrouter-llama") ∧
      ∀ probeOk, ∃ svc2,
        LLMService.init c10Env "openrouter-llama" probeOk = .ok svc2 ∧
        svc2.current_model = "openrouter-llama" :=
  change_model_sets_global_default c10Env c10Svc "internal-model" "openrouter-llama"
    (by decide)

/-- Raw outcome of `generate` in sync mode: either a completion string or the
`{"error": ...}` failure dict. -/
inductive GenOut where
  | str (s : String)
  | errDict (e : String)
deriving DecidableEq, Repr

/-- The reversed scan for the last user-role message (llm_service lines 192-197). -/
def last_user_content (messages : List Msg) : String :=
  match messages.reverse.find? (fun m => m.role == "user") with
  | some m => m.content
  | none => ""

/-- The canned answer for APE/agent questions (llm_service lines 200-209). -/
def apeInfoAnswer : String :=
  "APE(Agentic Pipeline Engine)는 다양한 LLM 모델과 RAG(Retrieval-Augmented Generation) 및 LangGraph 기능을 제공하는 백엔드 서버입니다. \n\n주요 기능:\n1. 다양한 LLM 모델 연결 (내부망/외부망 자동 전환)\n2. RAG를 통한 문서 검색 및 지식 기반 응답\n3. 에이전트 시스템을 통한 다양한 태스크 처리\n4. LangGraph를 통한 워크플로우 자동화\n\n자세한 내용은 문서를 참조하세요."

/-- Embedding of `LLMService._generate_mock_response` (lines 187-211). -/
def generate_mock_response (messages : List Msg) : String :=
  let user_message := last_user_content messages
  if containsSub user_message "APE" || containsSub user_message "에이전트" then
    apeInfoAnswer
  else
    "죄송합니다만, \x27" ++ user_message ++
      "\x27에 대한 정보를 찾을 수 없습니다. 다른 질문을 해주시겠어요?"

/-- The all-providers-failed message of `_generate_sync` (line 183). -/
def allFailedMsg : String :=
  "모든 LLM 서비스 호출 방법이 실패했습니다. API 키와 연결 상태를 확인하세요."

/-- The fallback loop of `_generate_sync` (lines 174-180): try each remaining
provider in order, returning the first success. -/
def try_fallbacks (call : String → List Msg → Except String String)
    (messages : List Msg) : List String → Option String
  | [] => none
  | p :: ps =>
    match call p messages with
    | .ok r => some r
    | .error _ => try_fallbacks call messages ps

/-- Embedding of `LLMService._generate_sync` (lines 148-185). `call p msgs` is
`_call_provider_llm(msgs, p)`; its `.error` is a raised exception (transport
failure, timeout, non-200, missing model). -/
def generate_sync (svc : LLMService) (call : String → List Msg → Except String String)
    (messages : List Msg) : GenOut :=
  if pyStartsWith svc.model_config.apiKey "mock_" then
    .str (generate_mock_response messages)
  else
    let provider := svc.model_config.provider
    let firstAttempt : Option String :=
      if provider = "internal" ∧ "internal" ∈ svc.available_providers then
        (call "internal" messages).toOption
      else if provider = "openrouter" ∧ "openrouter" ∈ svc.available_providers then
        (call "openrouter" messages).toOption
      else none
    match firstAttempt with
    | some r => .str r
    | none =>
      match try_fallbacks call messages
          (svc.available_providers.filter (fun p => p != provider)) with
      | some r => .str r
      | none => .errDict allFailedMsg

/-- C8: with the active model's configured apiKey beginning with the reserved
"mock_" sentinel, `generate` is independent of the provider-call behaviour (no
network call can influence the result) and depends only on the content of the
last user-role message: two invocations whose message lists agree there return
identical results, namely the deterministic mock response. -/
theorem mock_sentinel_deterministic (svc : LLMService)
    (call₁ call₂ : String → List Msg → Except String String) (m₁ m₂ : List Msg)
    (hmock : pyStartsWith svc.model_config.apiKey "mock_" = true)
    (hsame : last_user_content m₁ = last_user_content m₂) :
    generate_sync svc call₁ m₁ = generate_sync svc call₂ m₂ ∧
    generate_sync svc call₁ m₁ = .str (generate_mock_response m₁) := by
  have hm : generate_mock_response m₁ = generate_mock_response m₂ := by
    unfold generate_mock_response
    rw [hsame]
  constructor
  · simp only [generate_sync, hmock, if_true, hm]
  · simp only [generate_sync, hmock, if_true]

def c8Cfg : ModelConfig :=
  { name := "내부 LLM 모델", id := "internal-model-v1", description := "",
    provider := "internal", endpoint := "http://internal", apiKey := "mock_test_key" }

def c8Svc : LLMService :=
  { current_model := "internal-model", model_config := c8Cfg,
    model_id := "internal-model-v1", available_providers := ["internal"] }

/-- C8 witness: under the mock sentinel, a working network and a failing network
produce the same answer whenever the last user message agrees. -/
theorem mock_sentinel_deterministic_witness :
    generate_sync c8Svc (fun _ _ => .ok "network-answer") [⟨"user", "hi"⟩] =
      generate_sync c8Svc (fun _ _ => .error "network down")
        [⟨"system", "sys prompt"⟩, ⟨"user", "hi"⟩] ∧
    generate_sync c8Svc (fun _ _ => .ok "network-answer") [⟨"user", "hi"⟩] =
      .str (generate_mock_response [⟨"user", "hi"⟩]) :=
  mock_sentinel_deterministic c8Svc _ _ _ _ (by decide) (by decide)

/-- C9 amended: if the apiKey is not the mock sentinel and the attempt on the
current model's provider as well as every fallback attempt on the remaining
available providers fail, `generate` does not raise past its boundary: it
returns the structured failure dict — whose error field is the fixed
all-providers-failed message (the last provider error is only logged, not
carried in the result). -/
theorem generate_sync_all_fail (svc : LLMService)
    (call : String → List Msg → Except String String) (messages : List Msg)
    (hmock : pyStartsWith svc.model_config.apiKey "mock_" = false)
    (hfail : ∀ p ∈ svc.available_providers, ∃ e, call p messages = .error e) :
    generate_sync svc call messages = .errDict allFailedMsg := by
  have hfb : ∀ l, (∀ p ∈ l, ∃ e, call p messages = .error e) →
      try_fallbacks call messages l = none := by
    intro l
    induction l with
    | nil => intro _; rfl
    | cons p ps ih =>
      intro hl
      obtain ⟨e, he⟩ := hl p (List.mem_cons_self p ps)
      unfold try_fallbacks
      rw [he]
      exact ih (fun q hq => hl q (List.mem_cons_of_mem p hq))
  have hfb2 : try_fallbacks call messages
      (svc.available_providers.filter (fun p => p != svc.model_config.provider)) = none :=
    hfb _ (fun q hq => hfail q (List.mem_of_mem_filter hq))
  have hfa : (if svc.model_config.provider = "internal" ∧
        "internal" ∈ svc.available_providers then
        (call "internal" messages).toOption
      else if svc.model_config.provider = "openrouter" ∧
          "openrouter" ∈ svc.available_providers then
        (call "openrouter" messages).toOption
      else none) = none := by
    split
    next hc =>
      obtain ⟨e, he⟩ := hfail "internal" hc.2
      rw [he]
      rfl
    next =>
      split
      next hc =>
        obtain ⟨e, he⟩ := hfail "openrouter" hc.2
        rw [he]
        rfl
      next => rfl
  simp only [generate_sync, hmock, Bool.false_eq_true, if_false, hfa, hfb2]

def c9Cfg : ModelConfig :=
  { name := "내부 LLM 모델", id := "internal-model-v1", description := "",
    provider := "internal", endpoint := "http://internal", apiKey := "real-key" }

def c9Svc : LLMService :=
  { current_model := "internal-model", model_config := c9Cfg,
    model_id := "internal-model-v1", available_providers := ["internal", "openrouter"] }

/-- C9 counterexample: when every provider raises "boom", the structured failure
result carries the fixed all-providers-failed message, which neither equals nor
contains the last error "boom" — so the result does not carry the last error. -/
theorem generate_sync_fixed_failure_message :
    generate_sync c9Svc (fun _ _ => .error "boom") [⟨"user", "hi"⟩] =
      .errDict allFailedMsg ∧
    containsSub allFailedMsg "boom" = false ∧
    allFailedMsg ≠ "boom" := by
  decide

/-- C9 witness: the all-fail theorem applied at a concrete service whose two
providers both raise. -/
theorem generate_sync_all_fail_witness :
    generate_sync c9Svc (fun _ _ => .error "boom") [⟨"user", "hi"⟩] =
      .errDict allFailedMsg :=
  generate_sync_all_fail c9Svc (fun _ _ => .error "boom") [⟨"user", "hi"⟩]
    (by decide) (fun p _ => ⟨"boom", rfl⟩)

/-- A document as returned by the retrieval surface. Python keeps `title`,
`source`, `collection` and `relevance` inside the metadata dict; the embedding
flattens them into fields, with score floats modelled as `ℚ`. -/
structure SearchDoc where
  id : String
  title : String
  content : String
  source : String
  collection : String
  relevance : ℚ
deriving DecidableEq, Repr

/-- One raw row of a `collection.query` result (id, document, metadata,
distance). -/
structure RawRow where
  id : String
  title : String
  content : String
  source : String
  collection : String
  distance : ℚ
deriving DecidableEq, Repr

/-- A raw backend result; `hasDistances` is whether the `"distances"` key is
present in the result dict. -/
structure RawResults where
  rows : List RawRow
  hasDistances : Bool
deriving DecidableEq, Repr

/-- The per-row formatting of `VectorDatabase.query` (db_utils lines 210-223):
`similarity = 1.0 / (1.0 + distance)` applied to every row, with the distance
defaulting to 0.0 when the backend returned no distances. -/
def convertRow (hasDistances : Bool) (r : RawRow) : SearchDoc :=
  let distance : ℚ := if hasDistances then r.distance else 0
  let similarity : ℚ := 1 / (1 + distance)
  { id := r.id, title := r.title, content := r.content, source := r.source,
    collection := r.collection, relevance := similarity }

/-- Embedding of `VectorDatabase.query` (db_utils lines 178-230).
`backendCount` is the `collection.count()` call at the line-195 guard — outside
the `try`, so its failure propagates — and `backendQuery` is the
`collection.query` call inside the `try`, whose failure is caught and mapped
to `[]`. -/
def VectorDatabase.query (backendCount : Except String Nat)
    (backendQuery : Except String RawResults) : Except String (List SearchDoc) :=
  match backendCount with
  | .error e => .error e
  | .ok 0 => .ok []
  | .ok (_ + 1) =>
    match backendQuery with
    | .error _ => .ok []
    | .ok raw => .ok (raw.rows.map (convertRow raw.hasDistances))

/-- Embedding of `VectorDatabase.count` (db_utils lines 259-270): any backend
exception is caught and 0 returned. -/
def VectorDatabase.count (backendCount : Except String Nat) : Nat :=
  match backendCount with
  | .ok n => n
  | .error _ => 0

/-- Python `collection or "default"` in `search_documents`. -/
def collOr (c : Option String) : String :=
  match c with
  | some s => if s ≠ "" then s else "default"
  | none => "default"

/-- Embedding of `RAGAgentChroma._simulate_document_search`
(rag_agent_chroma lines 404-447): a fixed pool of four synthesized documents
whose contents cite the query, truncated to `num_results`. -/
def simulate_document_search (query collection : String) (num_results : Nat) :
    List SearchDoc :=
  ([{ id := "doc1", title := "프로젝트 요약 문서",
      content := "이 프로젝트는 " ++ query ++
        "와 관련된 기능을 제공합니다. 주요 목표는 사용자 경험 향상과 데이터 처리 최적화입니다.",
      source := collection ++ "/summary.md", collection := collection,
      relevance := 92/100 },
    { id := "doc2", title := "기술 스펙 문서",
      content := query ++
        "를 구현하기 위해 다음 기술이 사용됩니다: REST API, 비동기 처리, 데이터베이스 캐싱. 이를 통해 성능을 최적화합니다.",
      source := collection ++ "/tech_spec.md", collection := collection,
      relevance := 85/100 },
    { id := "doc3", title := "사용자 가이드",
      content := query ++
        " 기능을 사용하려면 다음 단계를 따르세요: 1) 로그인 2) 메뉴 선택 3) 파라미터 설정 4) 실행",
      source := collection ++ "/user_guide.md", collection := collection,
      relevance := 78/100 },
    { id := "doc4", title := "API 문서",
      content := query ++
        " API는 다음 엔드포인트를 제공합니다: GET /api/resource, POST /api/resource, PUT /api/resource/\x7bid\x7d",
      source := collection ++ "/api_docs.md", collection := collection,
      relevance := 72/100 }] : List SearchDoc).take num_results

/-- Post-`__init__` state of a `RAGAgentChroma` instance. When the chromadb
module failed to import, `__init__` sets `chroma_available = False` and
returns at line 101 before `search_config`, `embedding_model` and `db` are
ever assigned, so
those attributes do not exist on the object; `constructed dtk db_ok emb_ok`
is a completed `__init__` whose `search_config.get("default_top_k", 3)` is
`dtk` and whose `db` / `embedding_model` are non-None iff `db_ok` / `emb_ok`. -/
inductive RAGAgentChroma where
  | chromaMissing
  | constructed (default_top_k : Nat) (db_ok : Bool) (emb_ok : Bool)
deriving DecidableEq, Repr

/-- The `self.search_config.get("default_top_k", 3)` read at lines 250-251: in
the chromadb-missing state the attribute was never set and the read raises
`AttributeError`. -/
def RAGAgentChroma.default_top_k : RAGAgentChroma → Except String Nat
  | .chromaMissing =>
    .error "AttributeError: \x27RAGAgentChroma\x27 object has no attribute \x27search_config\x27"
  | .constructed dtk _ _ => .ok dtk

/-- The degradation guard of line 254,
`chroma_available and self.db is not None and self.embedding_model is not None`
(in the chromadb-missing state `chroma_available` is False and the `and`
short-circuits before the unset `db` / `embedding_model` attributes are read). -/
def RAGAgentChroma.available : RAGAgentChroma → Bool
  | .chromaMissing => false
  | .constructed _ db_ok emb_ok => db_ok && emb_ok

/-- Lines 253-283 of `RAGAgentChroma.search_documents`, after `num_results` has
been resolved to `k`: degrade when unavailable, otherwise run the `try` block
(`tryOutcome` is its combined outcome: the query embedding plus `db.query`,
whose exception is caught and degraded) and pad short results. -/
def search_documents_resolved (agent : RAGAgentChroma)
    (tryOutcome : Except String (List SearchDoc)) (query : String)
    (collection : Option String) (k : Nat) : List SearchDoc :=
  if ¬ RAGAgentChroma.available agent then
    simulate_document_search query (collOr collection) k
  else
    match tryOutcome with
    | .error _ => simulate_document_search query (collOr collection) k
    | .ok results =>
      if results.length < k then
        results ++ simulate_document_search query (collOr collection) (k - results.length)
      else results

/-- Embedding of `RAGAgentChroma.search_documents` (lines 237-283). The
`num_results is None` defaulting at lines 250-251 happens before the
degradation guard, so in the chromadb-missing state it raises (the `.error` is
the AttributeError propagating to the caller); every failure after that point
is caught. -/
def search_documents (agent : RAGAgentChroma)
    (tryOutcome : Except String (List SearchDoc)) (query : String)
    (collection : Option String) (num_results : Option Nat) :
    Except String (List SearchDoc) :=
  match num_results with
  | some k => .ok (search_documents_resolved agent tryOutcome query collection k)
  | none =>
    match RAGAgentChroma.default_top_k agent with
    | .error e => .error e
    | .ok dtk => .ok (search_documents_resolved agent tryOutcome query collection dtk)

/-- C4: the `count` half of the claim holds — `VectorDatabase.count` returns 0
on any internal fault — but `search_documents` is not total as claimed: when
the instance was constructed with the chromadb import missing
(`chroma_available = False`, a vector-backend-unavailable mode) and
`num_results` is left to default, the `self.search_config` read at line 250
raises `AttributeError` out of `search_documents`, even though the degradation
guard one line below explicitly handles that state; with `num_results`
supplied, the same call degrades to the synthesized results without raising. -/
theorem search_documents_missing_chromadb_raises :
    search_documents .chromaMissing (.ok []) "topic" none none =
      .error "AttributeError: \x27RAGAgentChroma\x27 object has no attribute \x27search_config\x27" ∧
    (∀ e, VectorDatabase.count (.error e) = 0) ∧
    (∀ k, search_documents .chromaMissing (.ok []) "topic" none (some k) =
      .ok (simulate_document_search "topic" "default" k)) := by
  refine ⟨rfl, fun e => rfl, fun k => ?_⟩
  simp [search_documents, search_documents_resolved, RAGAgentChroma.available, collOr]

/-- C5 counterexample: with degradation active and `k = 5` supplied,
`search_documents` returns only 4 results — the synthesized pool has four
entries — not exactly `k`. -/
theorem search_documents_k5_returns_4 :
    search_documents .chromaMissing (.ok []) "topic" none (some 5) =
      .ok (simulate_document_search "topic" "default" 5) ∧
    (simulate_document_search "topic" "default" 5).length = 4 ∧
    (simulate_document_search "topic" "default" 5).length ≠ 5 := by
  refine ⟨?_, by decide, by decide⟩
  simp [search_documents, search_documents_resolved, RAGAgentChroma.available, collOr]

lemma str_empty_append (s : String) : "" ++ s = s := by
  cases s
  rfl

lemma simulate_pool_chain (q c : String) (k : Nat) :
    List.Chain' (fun a b : SearchDoc => b.relevance < a.relevance)
      (simulate_document_search q c k) := by
  have hfull : List.Chain' (fun a b : SearchDoc => b.relevance < a.relevance)
      (simulate_document_search q c 4) := by
    simp only [simulate_document_search, List.take, List.chain'_cons,
      List.chain'_singleton, and_true]
    norm_num
  have h4 : simulate_document_search q c k =
      (simulate_document_search q c 4).take k := by
    simp [simulate_document_search, List.take_take]
  rw [h4]
  exact hfull.take k

/-- C5 amended: when degradation is active (any agent state failing the
availability guard, `num_results = k` supplied), `search_documents` returns
exactly the synthesized list of `min k 4` results (the placeholder pool has
four entries, so `k ≥ 5` yields only 4); when the real query returns fewer than
`k` matches, the remainder is padded with the synthesized documents; every
content of every synthesized document textually references the query, and their
relevance scores are the deterministic strictly decreasing sequence
0.92, 0.85, 0.78, 0.72. -/
theorem search_documents_padding (q : String) (coll : Option String) (k dtk : Nat)
    (agent : RAGAgentChroma) (results : List SearchDoc)
    (o : Except String (List SearchDoc))
    (hav : RAGAgentChroma.available agent = false)
    (hr : results.length < k) :
    search_documents agent o q coll (some k) =
      .ok (simulate_document_search q (collOr coll) k) ∧
    (simulate_document_search q (collOr coll) k).length = min k 4 ∧
    search_documents (.constructed dtk true true) (.ok results) q coll (some k) =
      .ok (results ++ simulate_document_search q (collOr coll) (k - results.length)) ∧
    (simulate_document_search q (collOr coll) k).map (fun d => d.relevance) =
      ([92/100, 85/100, 78/100, 72/100] : List ℚ).take k ∧
    (∀ d ∈ simulate_document_search q (collOr coll) k,
      ∃ pre post, d.content = pre ++ q ++ post) ∧
    List.Chain' (fun a b => b.relevance < a.relevance)
      (simulate_document_search q (collOr coll) k) := by
  refine ⟨?_, ?_, ?_, ?_, ?_, simulate_pool_chain q (collOr coll) k⟩
  · simp [search_documents, search_documents_resolved, hav]
  · simp [simulate_document_search, List.length_take]
  · simp [search_documents, search_documents_resolved, RAGAgentChroma.available, hr]
  · show ((_ : List SearchDoc).take k).map (fun d => d.relevance) = _
    rw [List.map_take]
    rfl
  · intro d hd
    simp only [simulate_document_search] at hd
    have hd2 := List.take_subset k _ hd
    simp only [List.mem_cons, List.mem_singleton] at hd2
    rcases hd2 with h | h | h | h | h
    · exact ⟨"이 프로젝트는 ",
        "와 관련된 기능을 제공합니다. 주요 목표는 사용자 경험 향상과 데이터 처리 최적화입니다.",
        by rw [h]⟩
    · exact ⟨"",
        "를 구현하기 위해 다음 기술이 사용됩니다: REST API, 비동기 처리, 데이터베이스 캐싱. 이를 통해 성능을 최적화합니다.",
        by rw [h, str_empty_append]⟩
    · exact ⟨"",
        " 기능을 사용하려면 다음 단계를 따르세요: 1) 로그인 2) 메뉴 선택 3) 파라미터 설정 4) 실행",
        by rw [h, str_empty_append]⟩
    · exact ⟨"",
        " API는 다음 엔드포인트를 제공합니다: GET /api/resource, POST /api/resource, PUT /api/resource/\x7bid\x7d",
        by rw [h, str_empty_append]⟩
    · exact absurd h (by simp)

def c5PadDoc : SearchDoc :=
  { id := "real1", title := "실문서", content := "real content", source := "s",
    collection := "default", relevance := 99/100 }

/-- C5 amended witness: the padding theorem applied to the chromadb-missing
agent with one real result and `k = 3`. -/
theorem search_documents_padding_witness :
    search_documents .chromaMissing (.ok []) "topic" none (some 3) =
      .ok (simulate_document_search "topic" (collOr none) 3) ∧
    (simulate_document_search "topic" (collOr none) 3).length = min 3 4 ∧
    search_documents (.constructed 3 true true) (.ok [c5PadDoc]) "topic" none (some 3) =
      .ok ([c5PadDoc] ++ simulate_document_search "topic" (collOr none) (3 - 1)) ∧
    (simulate_document_search "topic" (collOr none) 3).map (fun d => d.relevance) =
      ([92/100, 85/100, 78/100, 72/100] : List ℚ).take 3 ∧
    (∀ d ∈ simulate_document_search "topic" (collOr none) 3,
      ∃ pre post, d.content = pre ++ "topic" ++ post) ∧
    List.Chain' (fun a b => b.relevance < a.relevance)
      (simulate_document_search "topic" (collOr none) 3) := by
  have h := search_documents_padding "topic" none 3 3 .chromaMissing [c5PadDoc]
    (.ok []) (by decide) (by decide)
  exact h

lemma convertRow_relevance (r : RawRow) :
    (convertRow true r).relevance = 1 / (1 + r.distance) := rfl

lemma one_div_one_add_le (a b : ℚ) (ha : 0 ≤ a) (hb : 0 ≤ b) :
    1 / (1 + b) ≤ 1 / (1 + a) ↔ a ≤ b := by
  rw [div_le_div_iff₀ (by linarith) (by linarith)]
  constructor <;> intro h <;> linarith

/-- C6 counterexample: `VectorDatabase.query` applies the `1/(1+x)` conversion
to every raw score uniformly, including on a cosine-configured index: a single
match whose raw similarity is 1 comes back with relevance 1/2, not with the raw
similarity 1 as the claim states. -/
theorem query_cosine_not_identity :
    VectorDatabase.query (.ok 1)
        (.ok ⟨[⟨"doc1", "t", "c", "s", "col", 1⟩], true⟩) =
      .ok [⟨"doc1", "t", "c", "s", "col", 1/2⟩] ∧
    ((1 : ℚ)/2) ≠ (1 : ℚ) := by
  constructor
  · show (Except.ok ((([⟨"doc1", "t", "c", "s", "col", 1⟩] : List RawRow)).map
        (convertRow true)) : Except String (List SearchDoc)) = _
    norm_num [convertRow]
  · norm_num

/-- C6 amended: on every index, whatever the configured distance function,
`VectorDatabase.query` converts every returned row uniformly by
`relevance = 1/(1+distance)`; consequently (for the backend's nonnegative raw
scores) the result list is sorted descending by converted relevance exactly
when the raw distances are ascending. -/
theorem query_relevance_uniform (n : Nat) (rows : List RawRow)
    (h0 : ∀ r ∈ rows, 0 ≤ r.distance) :
    VectorDatabase.query (.ok (n + 1)) (.ok ⟨rows, true⟩) =
      .ok (rows.map (convertRow true)) ∧
    (∀ d ∈ rows.map (convertRow true), ∃ r ∈ rows,
      d.relevance = 1 / (1 + r.distance)) ∧
    (List.Chain' (fun a b : SearchDoc => b.relevance ≤ a.relevance)
        (rows.map (convertRow true)) ↔
      List.Chain' (fun a b : RawRow => a.distance ≤ b.distance) rows) := by
  refine ⟨rfl, ?_, ?_⟩
  · intro d hd
    obtain ⟨r, hr, rfl⟩ := List.mem_map.mp hd
    exact ⟨r, hr, rfl⟩
  · rw [List.chain'_map, List.chain'_iff_get, List.chain'_iff_get]
    constructor <;> intro hch i hi <;> have hh := hch i hi
    · rw [convertRow_relevance, convertRow_relevance] at hh
      exact (one_div_one_add_le _ _
        (h0 _ (List.get_mem rows i (by omega)))
        (h0 _ (List.get_mem rows (i + 1) (by omega)))).mp hh
    · rw [convertRow_relevance, convertRow_relevance]
      exact (one_div_one_add_le _ _
        (h0 _ (List.get_mem rows i (by omega)))
        (h0 _ (List.get_mem rows (i + 1) (by omega)))).mpr hh

/-- C6 amended witness: the uniform-conversion theorem applied to a concrete
two-row result with ascending distances 0 and 1. -/
theorem query_relevance_uniform_witness :
    VectorDatabase.query (.ok 2)
        (.ok ⟨[⟨"d1", "t1", "c1", "s1", "col", 0⟩,
               ⟨"d2", "t2", "c2", "s2", "col", 1⟩], true⟩) =
      .ok ([⟨"d1", "t1", "c1", "s1", "col", 0⟩,
            ⟨"d2", "t2", "c2", "s2", "col", 1⟩].map (convertRow true)) ∧
    (∀ d ∈ ([⟨"d1", "t1", "c1", "s1", "col", 0⟩,
             ⟨"d2", "t2", "c2", "s2", "col", 1⟩] : List RawRow).map (convertRow true),
      ∃ r ∈ ([⟨"d1", "t1", "c1", "s1", "col", 0⟩,
              ⟨"d2", "t2", "c2", "s2", "col", 1⟩] : List RawRow),
        d.relevance = 1 / (1 + r.distance)) ∧
    (List.Chain' (fun a b : SearchDoc => b.relevance ≤ a.relevance)
        (([⟨"d1", "t1", "c1", "s1", "col", 0⟩,
           ⟨"d2", "t2", "c2", "s2", "col", 1⟩] : List RawRow).map (convertRow true)) ↔
      List.Chain' (fun a b : RawRow => a.distance ≤ b.distance)
        ([⟨"d1", "t1", "c1", "s1", "col", 0⟩,
          ⟨"d2", "t2", "c2", "s2", "col", 1⟩] : List RawRow)) :=
  query_relevance_uniform 1
    [⟨"d1", "t1", "c1", "s1", "col", 0⟩, ⟨"d2", "t2", "c2", "s2", "col", 1⟩]
    (by decide)
